import Mathlib

/-!
Verification of the smart-home-bot orchestration logic: a shallow embedding of
the webhook dispatcher (src/main.py, handle_callback), the keyword-dispatch
workflow (src/workflow.py, HandleTextMessageWorkflow.run), the reply activities
(src/activity/reply.py) and the Home Assistant activities
(src/activity/homeassistant.py), together with theorems settling the spec's
claims about them.
-/

namespace SmartHomeBot

/-! ## Message normalization (src/workflow.py line 28)

The workflow dispatches on `input.message.strip().lower().replace(" ", "")`.
`strip()` removes leading/trailing whitespace, `lower()` lowercases, and
`replace(" ", "")` removes every space character.  Embedded over the string's
character list so that the kernel can evaluate it. -/

/-- Python `str.strip()`: drop leading and trailing whitespace characters. -/
def pyStrip (l : List Char) : List Char :=
  ((l.dropWhile Char.isWhitespace).reverse.dropWhile Char.isWhitespace).reverse

/-- `input.message.strip().lower().replace(" ", "")` from src/workflow.py line 28. -/
def normalizeMessage (s : String) : String :=
  String.mk (((pyStrip s.data).map Char.toLower).filter (fun c => c != ' '))

/-! ## Retry policy (src/workflow.py lines 22-26) -/

/-- `temporalio.common.RetryPolicy` as constructed by the workflow; the backoff
interval cap is recorded in seconds. -/
structure RetryPolicy where
  maximum_attempts : Nat
  maximum_interval_seconds : Nat
  non_retryable_error_types : List String
  deriving Repr, DecidableEq

/-- `ApiException.__name__` — the LINE messaging SDK's exception class name
(src/workflow.py line 25). -/
def apiExceptionName : String := "ApiException"

/-- The single retry policy built at the top of `HandleTextMessageWorkflow.run`
and passed to every `execute_activity` call (src/workflow.py lines 22-26). -/
def workflowRetryPolicy : RetryPolicy :=
  { maximum_attempts := 3
    maximum_interval_seconds := 5
    non_retryable_error_types := [apiExceptionName] }

/-! ## Activity parameter dataclasses (src/activity.py / src/activity/reply.py) -/

/-- `ReplyQuickReplyActivityParams`. -/
structure ReplyQuickReplyActivityParams where
  reply_token : String
  quote_token : String
  message : String
  quick_messages : List String
  deriving Repr, DecidableEq

/-- `ReplyAudioActivityParams` (duration in milliseconds). -/
structure ReplyAudioActivityParams where
  reply_token : String
  content_url : String
  duration : Nat
  deriving Repr, DecidableEq

/-- Which reply activity a workflow invocation targets, with its parameters. -/
inductive ActivityInvocation where
  | replyQuickReply (params : ReplyQuickReplyActivityParams)
  | replyAudio (params : ReplyAudioActivityParams)
  deriving Repr, DecidableEq

/-- One `workflow.execute_activity(...)` call as issued by
`HandleTextMessageWorkflow.run`: the invocation plus the
`start_to_close_timeout` (seconds) and retry policy keyword arguments. -/
structure ActivityCall where
  invocation : ActivityInvocation
  start_to_close_timeout_seconds : Nat
  retry_policy : RetryPolicy
  deriving Repr, DecidableEq

/-- The reply token carried in an activity call's parameters. -/
def ActivityCall.reply_token (c : ActivityCall) : String :=
  match c.invocation with
  | .replyQuickReply p => p.reply_token
  | .replyAudio p => p.reply_token

/-! ## The HandleTextMessage workflow (src/workflow.py) -/

/-- `HandleTextMessageWorkflowParams` (src/workflow.py lines 11-15). -/
structure HandleTextMessageWorkflowParams where
  reply_token : String
  quote_token : String
  message : String
  deriving Repr, DecidableEq

/-- One guard of the `match` statement:
`any([keyword == text for keyword in keywords])`. -/
def keywordMatch (text : String) (keywords : List String) : Bool :=
  keywords.any (fun keyword => keyword == text)

/-- The quick-reply choice list of the "pingu" branch (src/workflow.py line 36). -/
def pinguQuickMessages : List String :=
  ["叫", "驚訝", "生氣", "天婦羅", "甜甜圈", "雞排"]

/-- The keyword lists of the seven dispatch branches, in source order
(src/workflow.py lines 29-115). -/
def keywordTable : List (List String) :=
  [["pingu"],
   ["叫", "noot", "noot noot"],
   ["驚訝", "驚"],
   ["生氣", "氣"],
   ["天婦羅", "乾", "幹", "幹你娘"],
   ["甜甜圈"],
   ["雞排", "機掰", "雞巴", "雞掰"]]

/-- The body of the `match` statement of `HandleTextMessageWorkflow.run`,
dispatching on the normalized `text`.  Each branch issues exactly the
`execute_activity` call of the source, with `start_to_close_timeout` of 5
seconds and the shared retry policy, and returns `True`; the wildcard branch
returns `False` without any activity call. -/
def HandleTextMessageWorkflow.dispatch (input : HandleTextMessageWorkflowParams)
    (text : String) : List ActivityCall × Bool :=
  if keywordMatch text ["pingu"] then
    ([{ invocation := .replyQuickReply
          { reply_token := input.reply_token
            quote_token := input.quote_token
            message := "想讓 Pingu 怎麼叫 ?"
            quick_messages := pinguQuickMessages }
        start_to_close_timeout_seconds := 5
        retry_policy := workflowRetryPolicy }], true)
  else if keywordMatch text ["叫", "noot", "noot noot"] then
    ([{ invocation := .replyAudio
          { reply_token := input.reply_token
            content_url := "https://static.weii.dev/audio/pingu/noot_noot.mp3"
            duration := 1000 }
        start_to_close_timeout_seconds := 5
        retry_policy := workflowRetryPolicy }], true)
  else if keywordMatch text ["驚訝", "驚"] then
    ([{ invocation := .replyAudio
          { reply_token := input.reply_token
            content_url := "https://static.weii.dev/audio/pingu/amazed.mp3"
            duration := 1000 }
        start_to_close_timeout_seconds := 5
        retry_policy := workflowRetryPolicy }], true)
  else if keywordMatch text ["生氣", "氣"] then
    ([{ invocation := .replyAudio
          { reply_token := input.reply_token
            content_url := "https://static.weii.dev/audio/pingu/sms.mp3"
            duration := 4000 }
        start_to_close_timeout_seconds := 5
        retry_policy := workflowRetryPolicy }], true)
  else if keywordMatch text ["天婦羅", "乾", "幹", "幹你娘"] then
    ([{ invocation := .replyAudio
          { reply_token := input.reply_token
            content_url := "https://static.weii.dev/audio/pingu/oh_fucking.mp3"
            duration := 4000 }
        start_to_close_timeout_seconds := 5
        retry_policy := workflowRetryPolicy }], true)
  else if keywordMatch text ["甜甜圈"] then
    ([{ invocation := .replyAudio
          { reply_token := input.reply_token
            content_url := "https://static.weii.dev/audio/pingu/donut.mp3"
            duration := 4000 }
        start_to_close_timeout_seconds := 5
        retry_policy := workflowRetryPolicy }], true)
  else if keywordMatch text ["雞排", "機掰", "雞巴", "雞掰"] then
    ([{ invocation := .replyAudio
          { reply_token := input.reply_token
            content_url := "https://static.weii.dev/audio/pingu/jiba.mp3"
            duration := 2000 }
        start_to_close_timeout_seconds := 5
        retry_policy := workflowRetryPolicy }], true)
  else
    ([], false)

/-- `HandleTextMessageWorkflow.run` (src/workflow.py lines 20-122): normalize the
message and dispatch.  Returns the list of activity calls the execution issues
together with the boolean workflow result. -/
def HandleTextMessageWorkflow.run (input : HandleTextMessageWorkflowParams) :
    List ActivityCall × Bool :=
  HandleTextMessageWorkflow.dispatch input (normalizeMessage input.message)

/-! ## Activity retry semantics -/

/-- Outcome of one attempt of an activity: success, or a failure carrying the
raised exception's class name. -/
inductive AttemptOutcome where
  | success
  | failure (error_type : String)

/-- Modelled from the spec: the durable-execution engine's activity retry
behaviour, which is out of scope of src/ (the engine is an external
collaborator consumed via "execute activity with retry policy").  Attempts run
sequentially; a success stops; a failure whose error class is listed in
`non_retryable_error_types` stops immediately without another attempt;
otherwise the activity is retried until `maximum_attempts` attempts have been
made.  `fuel` counts the attempts still allowed, `i` indexes the attempt. -/
def retryAttempts (policy : RetryPolicy) (outcomes : Nat → AttemptOutcome) :
    Nat → Nat → Nat × Bool
  | 0, _ => (0, false)
  | fuel + 1, i =>
    match outcomes i with
    | .success => (1, true)
    | .failure e =>
      if policy.non_retryable_error_types.contains e || fuel == 0 then (1, false)
      else
        let r := retryAttempts policy outcomes fuel (i + 1)
        (r.1 + 1, r.2)

/-- Run one activity under a retry policy over a given sequence of attempt
outcomes; returns how many attempts were made and whether the activity
ultimately succeeded (`false` means the workflow fails with the activity's
error). -/
def runActivityWithRetry (policy : RetryPolicy) (outcomes : Nat → AttemptOutcome) :
    Nat × Bool :=
  retryAttempts policy outcomes policy.maximum_attempts 0

/-! ## Webhook dispatcher (src/main.py, handle_callback) -/

/-- The message content of a parsed webhook event: either LINE's
`TextMessageContent` (with its text and quote token) or any other content
class. -/
inductive EventMessageContent where
  | textMessageContent (text : String) (quote_token : String)
  | otherContent
  deriving Repr, DecidableEq

/-- A parsed webhook event: either LINE's `MessageEvent` (with its delivery id
`webhook_event_id`, its reply token and its message content) or any other
event class. -/
inductive WebhookEvent where
  | messageEvent (webhook_event_id : String) (reply_token : String)
      (message : EventMessageContent)
  | otherEvent
  deriving Repr, DecidableEq

/-- `temporalio.common.WorkflowIDReusePolicy` values relevant here. -/
inductive WorkflowIDReusePolicy where
  | allowDuplicate
  | terminateIfRunning
  deriving Repr, DecidableEq

/-- One `temporal_client.start_workflow` call as issued by `handle_callback`:
the workflow parameters, the workflow id, and the id-reuse policy. -/
structure StartWorkflowCall where
  params : HandleTextMessageWorkflowParams
  id : String
  id_reuse_policy : WorkflowIDReusePolicy
  deriving Repr, DecidableEq

/-- An HTTP response: status code and body. -/
structure HttpResponse where
  status_code : Nat
  body : String
  deriving Repr, DecidableEq

/-- The loop body of `handle_callback` (src/main.py lines 190-208) for one
parsed event: events that are not a `MessageEvent`, or whose message is not a
`TextMessageContent`, are skipped with `continue`; a qualifying event starts
`HandleTextMessageWorkflow` with the event's text, quote token and reply
token, workflow id = the event's `webhook_event_id`, and the
`TERMINATE_IF_RUNNING` id-reuse policy. -/
def startForEvent : WebhookEvent → Option StartWorkflowCall
  | .messageEvent webhook_event_id rt (.textMessageContent text qt) =>
    some { params := { reply_token := rt, quote_token := qt, message := text }
           id := webhook_event_id
           id_reuse_policy := .terminateIfRunning }
  | _ => none

/-- The delivery id (`webhook_event_id`) carried by an event, when it has one. -/
def eventDeliveryId : WebhookEvent → Option String
  | .messageEvent webhook_event_id _ _ => some webhook_event_id
  | .otherEvent => none

/-- Whether an event passes both `isinstance` filters of the loop. -/
def isQualifyingEvent : WebhookEvent → Bool
  | .messageEvent _ _ (.textMessageContent _ _) => true
  | _ => false

/-- Outcome of `WebhookParser(...).parse(body, x_line_signature)`: either the
signature check fails (`InvalidSignatureError`) or a list of events is
returned. -/
inductive ParseOutcome where
  | invalidSignature
  | parsed (events : List WebhookEvent)

/-- `handle_callback` (src/main.py lines 176-210) after the body has been read
and parsed: an invalid signature raises `HTTPException(400, "Invalid
signature.")` before any workflow-start call; otherwise every qualifying event
starts one workflow and the handler returns its `202 ACCEPTED` response.
Returns the HTTP response and the list of start-workflow calls issued. -/
def handle_callback (outcome : ParseOutcome) : HttpResponse × List StartWorkflowCall :=
  match outcome with
  | .invalidSignature => ({ status_code := 400, body := "Invalid signature." }, [])
  | .parsed events =>
    ({ status_code := 202, body := "ACCEPTED" }, events.filterMap startForEvent)

/-! ## Workflow-registry semantics of the id-reuse policy -/

/-- A running workflow execution in the engine's registry, identified by its
workflow id and a run token distinguishing successive executions. -/
structure Execution where
  workflow_id : String
  run_token : Nat
  deriving Repr, DecidableEq

/-- Modelled from the spec: the durable-execution engine's registry of running
executions under an id-reuse policy (the engine is out of scope of src/).
Under `terminateIfRunning`, starting a workflow with id `id` terminates every
still-running execution with that id and adds the fresh execution; under
`allowDuplicate` the fresh execution is simply added. -/
def applyStart : WorkflowIDReusePolicy → List Execution → String → Nat → List Execution
  | .terminateIfRunning, st, id, fresh =>
    { workflow_id := id, run_token := fresh } :: st.filter (fun e => e.workflow_id != id)
  | .allowDuplicate, st, id, fresh =>
    { workflow_id := id, run_token := fresh } :: st

/-- The running executions registered for a given workflow id. -/
def executionsFor (st : List Execution) (id : String) : List Execution :=
  st.filter (fun e => e.workflow_id == id)

/-- At most one running execution exists per workflow id. -/
def atMostOnePerId (st : List Execution) : Prop :=
  ∀ id, (executionsFor st id).length ≤ 1

/-! ## Home Assistant activities (src/activity/homeassistant.py) -/

/-- `RemoteControlAirConditionerActivityParams` (lines 15-22): pydantic
validates `temperature` with `ge=16, le=32`. -/
structure RemoteControlAirConditionerActivityParams where
  power_on : Bool
  temperature : Int
  deriving Repr, DecidableEq

/-- Pydantic construction of the params: the `ge=16, le=32` bounds on
`temperature` are checked when the dataclass is instantiated, before the
activity body (and hence before any publish) runs; out-of-range input raises a
validation error, modelled as `none`. -/
def RemoteControlAirConditionerActivityParams.validate (power_on : Bool)
    (temperature : Int) : Option RemoteControlAirConditionerActivityParams :=
  if 16 ≤ temperature ∧ temperature ≤ 32 then
    some { power_on := power_on, temperature := temperature }
  else none

/-- The IRHVAC command payload built by `_generate_mqtt_payload` (lines 87-98),
field for field. -/
structure IRHVACPayload where
  Vendor : String
  Model : Int
  Command : String
  Mode : String
  Power : String
  Celsius : String
  Temp : Int
  FanSpeed : String
  SwingV : String
  SwingH : String
  deriving Repr, DecidableEq

/-- `_generate_mqtt_payload(power_on, temperature)` (lines 87-98): every field
except `Power` and `Temp` is a hard-coded vendor constant. -/
def generate_mqtt_payload (power_on : Bool) (temperature : Int) : IRHVACPayload :=
  { Vendor := "HITACHI_AC344"
    Model := -1
    Command := "Control"
    Mode := "Cool"
    Power := if power_on then "On" else "Off"
    Celsius := "On"
    Temp := temperature
    FanSpeed := "Auto"
    SwingV := "Auto"
    SwingH := "Auto" }

/-- One MQTT publish call: topic, payload (serialized with `json.dumps` in the
source; kept structured here) and quality-of-service level. -/
structure MqttPublish where
  topic : String
  payload : IRHVACPayload
  qos : Nat
  deriving Repr, DecidableEq

/-- `remote_control_air_conditioner` (lines 66-85): publish the generated
payload to the fixed topic `tasmota/cmnd/IRHVAC` with QoS 2. -/
def remote_control_air_conditioner
    (input : RemoteControlAirConditionerActivityParams) : MqttPublish :=
  { topic := "tasmota/cmnd/IRHVAC"
    payload := generate_mqtt_payload input.power_on input.temperature
    qos := 2 }

/-- The state translation in `check_2f_bedroom_presence_status` (lines 48-64):
`"yes" if result.state == "on" else ("no" if result.state == "off" else
result.state)`. -/
def check_2f_bedroom_presence_status (raw_state : String) : String :=
  if raw_state == "on" then "yes"
  else if raw_state == "off" then "no"
  else raw_state

/-! ## Reply activity message construction (src/activity/reply.py / src/activity.py) -/

/-- `linebot.v3.messaging.MessageAction`: a quick-reply button action with a
label and the text posted back when pressed. -/
structure MessageAction where
  label : String
  text : String
  deriving Repr, DecidableEq

/-- `linebot.v3.messaging.QuickReplyItem`. -/
structure QuickReplyItem where
  action : MessageAction
  deriving Repr, DecidableEq

/-- `linebot.v3.messaging.QuickReply`. -/
structure QuickReply where
  items : List QuickReplyItem
  deriving Repr, DecidableEq

/-- `linebot.v3.messaging.TextMessage` as used here: quote token, text, and an
optional quick reply. -/
structure TextMessage where
  quote_token : String
  text : String
  quick_reply : Option QuickReply
  deriving Repr, DecidableEq

/-- A message in a reply request: a text message or an audio message. -/
inductive ReplyMessage where
  | textMessage (message : TextMessage)
  | audioMessage (original_content_url : String) (duration : Nat)
  deriving Repr, DecidableEq

/-- `linebot.v3.messaging.ReplyMessageRequest`. -/
structure ReplyMessageRequest where
  reply_token : String
  messages : List ReplyMessage
  deriving Repr, DecidableEq

/-- `ReplyActivity.reply_quick_reply` (src/activity/reply.py lines 66-90, and
identically src/activity.py lines 40-61): one text message whose quick reply
has one item per choice, each item a `MessageAction` with `label=text,
text=text`. -/
def ReplyActivity.reply_quick_reply (input : ReplyQuickReplyActivityParams) :
    ReplyMessageRequest :=
  { reply_token := input.reply_token
    messages := [.textMessage
      { quote_token := input.quote_token
        text := input.message
        quick_reply := some
          { items := input.quick_messages.map
              (fun text => { action := { label := text, text := text } }) } }] }

/-- `ReplyActivity.reply_audio`: one audio message. -/
def ReplyActivity.reply_audio (input : ReplyAudioActivityParams) :
    ReplyMessageRequest :=
  { reply_token := input.reply_token
    messages := [.audioMessage input.content_url input.duration] }

/-- The quick-reply items carried by a reply request's messages. -/
def quickReplyItemsOf (req : ReplyMessageRequest) : List QuickReplyItem :=
  (req.messages.map (fun m =>
    match m with
    | .textMessage tm =>
      match tm.quick_reply with
      | some qr => qr.items
      | none => []
    | .audioMessage _ _ => [])).flatten

/-! ## Guardrail verdict handling (guardrail-variant workflow) -/

/-- Modelled from the spec: the guardrail classification verdict
(`GuardrailVerdict` in the data model) with its two independent boolean flags
and free-text reason.  The guardrail-variant ConversationWorkflow is not
present under src/. -/
structure GuardrailVerdict where
  is_related : Bool
  is_supported : Bool
  reason : String
  deriving Repr, DecidableEq

/-- The spec's canned rejection message for input that is not
smart-home-related. -/
def notSmartHomeRelatedMessage : String := "only handle smart-home-related requests"

/-- The spec's canned rejection message for related-but-unsupported input. -/
def unsupportedRequestMessage : String := "only handle supported requests"

/-- Modelled from the spec: the guardrail-variant workflow's rejection-reply
selection — "select a canned reply: 'only handle smart-home-related requests'
if not topic-related, else 'only handle supported requests' if
related-but-unsupported"; an accepted verdict (both flags true) sends no
canned rejection reply (`none`). -/
def guardrailReplyText (verdict : GuardrailVerdict) : Option String :=
  if verdict.is_related = false then some notSmartHomeRelatedMessage
  else if verdict.is_supported = false then some unsupportedRequestMessage
  else none

/-! ## Helper lemmas -/

/-- Case analysis of one workflow execution: either no branch matched (no
activity call, result `false`) or exactly one branch matched, issuing exactly
one activity call that carries the shared retry policy, the 5-second
start-to-close timeout, and the input's reply token. -/
theorem run_branches (input : HandleTextMessageWorkflowParams) :
    HandleTextMessageWorkflow.run input = ([], false) ∨
    ∃ c : ActivityCall, HandleTextMessageWorkflow.run input = ([c], true) ∧
      c.retry_policy = workflowRetryPolicy ∧
      c.start_to_close_timeout_seconds = 5 ∧
      c.reply_token = input.reply_token := by
  unfold HandleTextMessageWorkflow.run HandleTextMessageWorkflow.dispatch
  repeat' split
  all_goals first
    | exact Or.inl rfl
    | exact Or.inr ⟨_, rfl, rfl, rfl, rfl⟩

/-- Claim C1: every activity invocation made by the HandleTextMessage workflow
(every reply activity in every dispatch branch) runs under the retry policy
with maximum 3 attempts and a 5-second capped backoff interval, whose single
non-retryable error class is the messaging provider's `ApiException`; under
that policy an activity whose attempt raises `ApiException` is attempted
exactly once — never a second time — and fails immediately. -/
theorem C1_activity_retry_policy :
    (∀ input : HandleTextMessageWorkflowParams,
      ∀ c ∈ (HandleTextMessageWorkflow.run input).1,
        c.retry_policy = workflowRetryPolicy) ∧
    workflowRetryPolicy.maximum_attempts = 3 ∧
    workflowRetryPolicy.maximum_interval_seconds = 5 ∧
    workflowRetryPolicy.non_retryable_error_types = [apiExceptionName] ∧
    (∀ outcomes : Nat → AttemptOutcome,
      outcomes 0 = AttemptOutcome.failure apiExceptionName →
      runActivityWithRetry workflowRetryPolicy outcomes = (1, false)) := by
  refine ⟨?_, rfl, rfl, rfl, ?_⟩
  · intro input c hc
    rcases run_branches input with h | ⟨c', h, hpol, _, _⟩
    · rw [h] at hc
      simp at hc
    · rw [h] at hc
      simp at hc
      subst hc
      exact hpol
  · intro outcomes h
    have hstep : runActivityWithRetry workflowRetryPolicy outcomes =
        retryAttempts workflowRetryPolicy outcomes (2 + 1) 0 := rfl
    rw [hstep, retryAttempts, h]
    simp [workflowRetryPolicy, apiExceptionName]

/-- Witness for C1: the concrete call of the "pingu" branch carries the shared
retry policy, and a run whose every attempt raises `ApiException` makes
exactly one attempt and fails. -/
theorem C1_activity_retry_policy_witness :
    ({ invocation := .replyQuickReply
         { reply_token := "rt", quote_token := "qt"
           message := "想讓 Pingu 怎麼叫 ?", quick_messages := pinguQuickMessages }
       start_to_close_timeout_seconds := 5
       retry_policy := workflowRetryPolicy : ActivityCall }).retry_policy =
        workflowRetryPolicy ∧
    runActivityWithRetry workflowRetryPolicy
        (fun _ => AttemptOutcome.failure apiExceptionName) = (1, false) :=
  ⟨C1_activity_retry_policy.1 ⟨"rt", "qt", "pingu"⟩ _ (by decide),
   C1_activity_retry_policy.2.2.2.2 (fun _ => AttemptOutcome.failure apiExceptionName) rfl⟩

/-- Claim C10: every execution of the HandleTextMessage workflow invokes at
most one reply activity; every activity call it issues carries the input's
(single-use) reply token, so the token reaches the provider at most once per
execution; and an execution returning `false` invokes no activity at all. -/
theorem C10_single_reply_token_use (input : HandleTextMessageWorkflowParams) :
    (HandleTextMessageWorkflow.run input).1.length ≤ 1 ∧
    ((HandleTextMessageWorkflow.run input).2 = false →
      (HandleTextMessageWorkflow.run input).1 = []) ∧
    ∀ c ∈ (HandleTextMessageWorkflow.run input).1,
      c.reply_token = input.reply_token := by
  rcases run_branches input with h | ⟨c, h, _, _, htok⟩ <;> rw [h]
  · exact ⟨by simp, fun _ => rfl, by simp⟩
  · refine ⟨by simp, by simp, ?_⟩
    intro c' hc'
    simp at hc'
    subst hc'
    exact htok

/-- Witness for C10 at the unmatched input "hello": at most one call, and the
`false` result comes with an empty call list. -/
theorem C10_single_reply_token_use_witness :
    (HandleTextMessageWorkflow.run ⟨"rt", "qt", "hello"⟩).1.length ≤ 1 ∧
    (HandleTextMessageWorkflow.run ⟨"rt", "qt", "hello"⟩).1 = [] :=
  ⟨(C10_single_reply_token_use ⟨"rt", "qt", "hello"⟩).1,
   (C10_single_reply_token_use ⟨"rt", "qt", "hello"⟩).2.1 (by decide)⟩

/-- Claim C4: every input whose normalization (trim, lowercase, space removal)
equals "pingu" makes the workflow send exactly one quick-reply whose choices
are exactly `["叫", "驚訝", "生氣", "天婦羅", "甜甜圈", "雞排"]` in order and
return `true`; and in the quick-reply message built by the reply activity,
every choice becomes a button whose label and postback text are the identical
string. -/
theorem C4_pingu_quick_reply (input : HandleTextMessageWorkflowParams)
    (h : normalizeMessage input.message = "pingu") :
    HandleTextMessageWorkflow.run input =
      ([{ invocation := .replyQuickReply
            { reply_token := input.reply_token
              quote_token := input.quote_token
              message := "想讓 Pingu 怎麼叫 ?"
              quick_messages := pinguQuickMessages }
          start_to_close_timeout_seconds := 5
          retry_policy := workflowRetryPolicy }], true) ∧
    pinguQuickMessages = ["叫", "驚訝", "生氣", "天婦羅", "甜甜圈", "雞排"] ∧
    ∀ (params : ReplyQuickReplyActivityParams),
      ∀ item ∈ quickReplyItemsOf (ReplyActivity.reply_quick_reply params),
        item.action.label = item.action.text := by
  refine ⟨?_, rfl, ?_⟩
  · unfold HandleTextMessageWorkflow.run
    rw [h]
    rfl
  · intro params item hitem
    simp [quickReplyItemsOf, ReplyActivity.reply_quick_reply] at hitem
    obtain ⟨t, _, rfl⟩ := hitem
    rfl

/-- Witness for C4 at the concrete input " PinGu " (case- and
space-insensitive match). -/
theorem C4_pingu_quick_reply_witness :
    HandleTextMessageWorkflow.run ⟨"rt", "qt", " PinGu "⟩ =
      ([{ invocation := .replyQuickReply
            { reply_token := "rt", quote_token := "qt"
              message := "想讓 Pingu 怎麼叫 ?", quick_messages := pinguQuickMessages }
          start_to_close_timeout_seconds := 5
          retry_policy := workflowRetryPolicy }], true) ∧
    pinguQuickMessages = ["叫", "驚訝", "生氣", "天婦羅", "甜甜圈", "雞排"] :=
  ⟨(C4_pingu_quick_reply ⟨"rt", "qt", " PinGu "⟩ (by decide)).1,
   (C4_pingu_quick_reply ⟨"rt", "qt", " PinGu "⟩ (by decide)).2.1⟩

/-- Claim C5: every input whose normalized form matches none of the literal
keywords in the keyword table makes the workflow return `false` without
invoking any reply activity. -/
theorem C5_unmatched_silent (input : HandleTextMessageWorkflowParams)
    (h : ∀ keyword ∈ keywordTable.flatten,
      keyword ≠ normalizeMessage input.message) :
    HandleTextMessageWorkflow.run input = ([], false) := by
  have hm : ∀ ks ∈ keywordTable,
      keywordMatch (normalizeMessage input.message) ks = false := by
    intro ks hks
    apply List.any_eq_false.mpr
    intro k hk
    simp only [beq_iff_eq]
    exact h k (List.mem_flatten.mpr ⟨ks, hks, hk⟩)
  unfold HandleTextMessageWorkflow.run HandleTextMessageWorkflow.dispatch
  rw [hm ["pingu"] (by simp [keywordTable]),
    hm ["叫", "noot", "noot noot"] (by simp [keywordTable]),
    hm ["驚訝", "驚"] (by simp [keywordTable]),
    hm ["生氣", "氣"] (by simp [keywordTable]),
    hm ["天婦羅", "乾", "幹", "幹你娘"] (by simp [keywordTable]),
    hm ["甜甜圈"] (by simp [keywordTable]),
    hm ["雞排", "機掰", "雞巴", "雞掰"] (by simp [keywordTable])]
  simp

/-- Witness for C5 at the concrete unmatched input "hello world". -/
theorem C5_unmatched_silent_witness :
    HandleTextMessageWorkflow.run ⟨"rt", "qt", "hello world"⟩ = ([], false) :=
  C5_unmatched_silent ⟨"rt", "qt", "hello world"⟩ (by decide)

/-- Executions surviving a terminate-if-running start never pair the filtered
predicate with its negation: filtering the kept tail for the started id is
empty. -/
theorem filter_kept_for_id (st : List Execution) (id : String) :
    (st.filter (fun e => e.workflow_id != id)).filter
      (fun e => e.workflow_id == id) = [] := by
  induction st with
  | nil => rfl
  | cons e t ih =>
    by_cases hw : e.workflow_id = id
    · simp [List.filter_cons, bne_iff_ne, beq_iff_eq, hw, ih]
    · simp [List.filter_cons, bne_iff_ne, beq_iff_eq, hw, ih]

/-- After a terminate-if-running start for `id`, exactly the fresh execution is
registered for `id`. -/
theorem executionsFor_applyStart_self (st : List Execution) (id : String)
    (fresh : Nat) :
    executionsFor (applyStart .terminateIfRunning st id fresh) id =
      [{ workflow_id := id, run_token := fresh }] := by
  simp only [executionsFor, applyStart, List.filter_cons, beq_self_eq_true,
    if_true]
  rw [filter_kept_for_id]

/-- A terminate-if-running start for `id` does not grow the executions
registered for any other id. -/
theorem executionsFor_applyStart_other (st : List Execution) (id id' : String)
    (fresh : Nat) (hne : id' ≠ id) :
    (executionsFor (applyStart .terminateIfRunning st id fresh) id').length ≤
      (executionsFor st id').length := by
  have hhead : (({ workflow_id := id, run_token := fresh } : Execution).workflow_id
      == id') = false := by
    simp [beq_iff_eq]
    exact fun h => hne h.symm
  simp only [executionsFor, applyStart, List.filter_cons, hhead,
    Bool.false_eq_true, if_false]
  exact List.Sublist.length_le
    ((List.filter_sublist st).filter (fun e => e.workflow_id == id'))

/-- Claim C2: a qualifying webhook event starts exactly one workflow execution
whose workflow id is the event's own delivery id with the terminate-if-running
id-collision policy; every start issued by the dispatcher carries that policy
and the delivery id of some received event; and under that policy the
engine registry keeps at most one execution per id — a start for an id leaves
exactly one execution for it, and two starts in quick succession leave exactly
the second. -/
theorem C2_dedup_by_delivery_id :
    (∀ id rt txt qt,
      startForEvent (.messageEvent id rt (.textMessageContent txt qt)) =
        some { params := { reply_token := rt, quote_token := qt, message := txt }
               id := id
               id_reuse_policy := .terminateIfRunning }) ∧
    (∀ (e : WebhookEvent) (c : StartWorkflowCall), startForEvent e = some c →
      eventDeliveryId e = some c.id ∧
      c.id_reuse_policy = .terminateIfRunning) ∧
    (∀ (events : List WebhookEvent), ∀ c ∈ (handle_callback (.parsed events)).2,
      ∃ e ∈ events, startForEvent e = some c) ∧
    (∀ st id fresh, atMostOnePerId st →
      atMostOnePerId (applyStart .terminateIfRunning st id fresh)) ∧
    (∀ st id fresh,
      executionsFor (applyStart .terminateIfRunning st id fresh) id =
        [{ workflow_id := id, run_token := fresh }]) ∧
    (∀ st id f1 f2,
      executionsFor (applyStart .terminateIfRunning
          (applyStart .terminateIfRunning st id f1) id f2) id =
        [{ workflow_id := id, run_token := f2 }]) := by
  refine ⟨fun id rt txt qt => rfl, ?_, ?_, ?_, executionsFor_applyStart_self,
    fun st id f1 f2 => executionsFor_applyStart_self _ id f2⟩
  · intro e c hec
    cases e with
    | messageEvent id rt m =>
      cases m with
      | textMessageContent txt qt =>
        simp only [startForEvent, Option.some.injEq] at hec
        subst hec
        exact ⟨rfl, rfl⟩
      | otherContent => simp [startForEvent] at hec
    | otherEvent => simp [startForEvent] at hec
  · intro events c hc
    simpa [handle_callback, List.mem_filterMap] using hc
  · intro st id fresh hst id'
    by_cases hid : id' = id
    · subst hid
      rw [executionsFor_applyStart_self]
      simp
    · exact le_trans (executionsFor_applyStart_other st id id' fresh hid) (hst id')

/-- Witness for C2: the start call of a concrete qualifying event, and the
registry after two quick-succession starts for the same delivery id holding
exactly the second execution. -/
theorem C2_dedup_by_delivery_id_witness :
    startForEvent (.messageEvent "d1" "rt" (.textMessageContent "hi" "qt")) =
      some { params := { reply_token := "rt", quote_token := "qt", message := "hi" }
             id := "d1"
             id_reuse_policy := .terminateIfRunning } ∧
    atMostOnePerId (applyStart .terminateIfRunning [] "d1" 0) ∧
    executionsFor (applyStart .terminateIfRunning
        (applyStart .terminateIfRunning [] "d1" 0) "d1" 1) "d1" =
      [{ workflow_id := "d1", run_token := 1 }] :=
  ⟨C2_dedup_by_delivery_id.1 "d1" "rt" "hi" "qt",
   C2_dedup_by_delivery_id.2.2.2.1 [] "d1" 0
     (fun id => by simp [executionsFor]),
   C2_dedup_by_delivery_id.2.2.2.2.2 [] "d1" 0 1⟩

/-- Claim C6: a webhook request whose body fails signature verification is
answered with HTTP 400 before any workflow-start call is issued: the handler
responds 400 ("Invalid signature.") and starts zero workflows. -/
theorem C6_invalid_signature_rejected :
    handle_callback .invalidSignature =
      ({ status_code := 400, body := "Invalid signature." }, []) := rfl

/-- Claim C7: for a verified request, the handler starts one workflow per
event that is both a message event and a text-message content, silently skips
every other event kind, and responds 202 "ACCEPTED" regardless of how many
events qualified. -/
theorem C7_verified_dispatch (events : List WebhookEvent) :
    (handle_callback (.parsed events)).1 =
      { status_code := 202, body := "ACCEPTED" } ∧
    (handle_callback (.parsed events)).2 = events.filterMap startForEvent ∧
    (events.filterMap startForEvent).length =
      (events.filter isQualifyingEvent).length ∧
    (∀ e : WebhookEvent, isQualifyingEvent e = false → startForEvent e = none) ∧
    (∀ e : WebhookEvent, isQualifyingEvent e = true →
      (startForEvent e).isSome = true) := by
  refine ⟨rfl, rfl, ?_, ?_, ?_⟩
  · induction events with
    | nil => rfl
    | cons e t ih =>
      cases e with
      | messageEvent id rt m =>
        cases m <;>
          simp [List.filterMap_cons, List.filter_cons, isQualifyingEvent,
            startForEvent, ih]
      | otherEvent =>
        simp [List.filterMap_cons, List.filter_cons, isQualifyingEvent,
          startForEvent, ih]
  · intro e he
    cases e with
    | messageEvent id rt m =>
      cases m with
      | textMessageContent txt qt => simp [isQualifyingEvent] at he
      | otherContent => rfl
    | otherEvent => rfl
  · intro e he
    cases e with
    | messageEvent id rt m =>
      cases m with
      | textMessageContent txt qt => rfl
      | otherContent => simp [isQualifyingEvent] at he
    | otherEvent => simp [isQualifyingEvent] at he

/-- Witness for C7: a concrete verified batch with one qualifying and one
non-qualifying event yields the 202 response, and the non-qualifying event is
skipped without a start. -/
theorem C7_verified_dispatch_witness :
    (handle_callback (.parsed
        [.messageEvent "d1" "rt" (.textMessageContent "hi" "qt"),
         .otherEvent])).1 =
      { status_code := 202, body := "ACCEPTED" } ∧
    startForEvent .otherEvent = none :=
  ⟨(C7_verified_dispatch
      [.messageEvent "d1" "rt" (.textMessageContent "hi" "qt"), .otherEvent]).1,
   (C7_verified_dispatch []).2.2.2.1 .otherEvent rfl⟩

/-- Claim C3: for every `power_on` and every temperature `t ∈ [16,32]`, the
published air-conditioner command has `Temp = t`, `Power = "On"/"Off"`
according to `power_on`, and all other payload fields equal to the fixed
vendor constants, published to the fixed topic `tasmota/cmnd/IRHVAC`; a
temperature outside `[16,32]` is rejected by parameter validation before any
publish. -/
theorem C3_air_conditioner_command :
    (∀ (p : Bool) (t : Int), 16 ≤ t → t ≤ 32 →
      RemoteControlAirConditionerActivityParams.validate p t =
        some { power_on := p, temperature := t } ∧
      (remote_control_air_conditioner { power_on := p, temperature := t }).topic =
        "tasmota/cmnd/IRHVAC" ∧
      (remote_control_air_conditioner { power_on := p, temperature := t }).payload =
        { Vendor := "HITACHI_AC344"
          Model := -1
          Command := "Control"
          Mode := "Cool"
          Power := if p then "On" else "Off"
          Celsius := "On"
          Temp := t
          FanSpeed := "Auto"
          SwingV := "Auto"
          SwingH := "Auto" }) ∧
    (∀ (p : Bool) (t : Int), t < 16 ∨ 32 < t →
      RemoteControlAirConditionerActivityParams.validate p t = none) := by
  constructor
  · intro p t h1 h2
    refine ⟨?_, rfl, rfl⟩
    simp [RemoteControlAirConditionerActivityParams.validate, h1, h2]
  · intro p t h
    have hout : ¬(16 ≤ t ∧ t ≤ 32) := by omega
    simp [RemoteControlAirConditionerActivityParams.validate, hout]

/-- Witness for C3 at `power_on = true, t = 25` (accepted, full payload) and
`t = 40` (rejected before publish). -/
theorem C3_air_conditioner_command_witness :
    RemoteControlAirConditionerActivityParams.validate true 25 =
      some { power_on := true, temperature := 25 } ∧
    (remote_control_air_conditioner
        { power_on := true, temperature := 25 }).payload =
      { Vendor := "HITACHI_AC344"
        Model := -1
        Command := "Control"
        Mode := "Cool"
        Power := if true then "On" else "Off"
        Celsius := "On"
        Temp := 25
        FanSpeed := "Auto"
        SwingV := "Auto"
        SwingH := "Auto" } ∧
    RemoteControlAirConditionerActivityParams.validate false 40 = none :=
  ⟨(C3_air_conditioner_command.1 true 25 (by decide) (by decide)).1,
   (C3_air_conditioner_command.1 true 25 (by decide) (by decide)).2.2,
   C3_air_conditioner_command.2 false 40 (by decide)⟩

/-- Claim C8: the presence-sensor translation maps the raw state "on" to
"yes", "off" to "no", and passes every other raw value through unchanged. -/
theorem C8_presence_translation (s : String) :
    check_2f_bedroom_presence_status "on" = "yes" ∧
    check_2f_bedroom_presence_status "off" = "no" ∧
    (s ≠ "on" → s ≠ "off" → check_2f_bedroom_presence_status s = s) := by
  refine ⟨rfl, rfl, fun h1 h2 => ?_⟩
  simp [check_2f_bedroom_presence_status, h1, h2]

/-- Witness for C8 at the pass-through raw value "unavailable". -/
theorem C8_presence_translation_witness :
    check_2f_bedroom_presence_status "on" = "yes" ∧
    check_2f_bedroom_presence_status "off" = "no" ∧
    check_2f_bedroom_presence_status "unavailable" = "unavailable" :=
  ⟨(C8_presence_translation "unavailable").1,
   (C8_presence_translation "unavailable").2.1,
   (C8_presence_translation "unavailable").2.2 (by decide) (by decide)⟩

/-- Claim C9: a guardrail verdict with `is_related = false` always yields the
"not smart-home-related" canned reply, regardless of `is_supported`; a verdict
with `is_related = true` and `is_supported = false` yields the "unsupported
request" canned reply. -/
theorem C9_guardrail_canned_replies (v : GuardrailVerdict) :
    (v.is_related = false →
      guardrailReplyText v = some notSmartHomeRelatedMessage) ∧
    (v.is_related = true → v.is_supported = false →
      guardrailReplyText v = some unsupportedRequestMessage) := by
  constructor
  · intro h
    simp [guardrailReplyText, h]
  · intro h1 h2
    simp [guardrailReplyText, h1, h2]

/-- Witness for C9 at the two rejected verdicts (is_related=false with
is_supported=true, and is_related=true with is_supported=false). -/
theorem C9_guardrail_canned_replies_witness :
    guardrailReplyText { is_related := false, is_supported := true, reason := "r" } =
      some notSmartHomeRelatedMessage ∧
    guardrailReplyText { is_related := true, is_supported := false, reason := "r" } =
      some unsupportedRequestMessage :=
  ⟨(C9_guardrail_canned_replies
      { is_related := false, is_supported := true, reason := "r" }).1 rfl,
   (C9_guardrail_canned_replies
      { is_related := true, is_supported := false, reason := "r" }).2 rfl rfl⟩

end SmartHomeBot
